import Mathlib

/-!
Shallow embedding of the Windows backend of the rust-printers library.

The embedding mirrors `src/windows.rs`, `src/windows/winspool/jobs.rs` and
`src/windows/winspool/info.rs`.  OS calls are modelled by environment records
whose boolean/integer fields are the results the OS would return; every
operation returns its Rust result together with the list of platform events
(handle acquisitions and releases, page cycles, blits) it performed, so that
resource-cleanup claims can be stated as trace properties.
-/

namespace RustPrinters

/-- Canonical printer states, from `common/base/printer.rs` (the variants are
fixed by their uses in `windows.rs`). -/
inductive PrinterState
  | READY
  | PRINTING
  | PAUSED
  | OFFLINE
  | UNKNOWN
deriving DecidableEq

/-- Canonical print-job states, from `common/base/job.rs` (the variants are
fixed by their uses in `windows.rs`). -/
inductive PrinterJobState
  | PENDING
  | PAUSED
  | PROCESSING
  | CANCELLED
  | COMPLETED
  | UNKNOWN
deriving DecidableEq

/-- Substring test over character lists, modelling Rust `str::contains`. -/
def listContainsSubstr (s pat : List Char) : Bool :=
  (List.range (s.length + 1)).any (fun i => pat.isPrefixOf (List.drop i s))

def offlineChars : List Char := "offline".toList

def pendingDeletionChars : List Char := "pending_deletion".toList

/-- Embedding of `parse_printer_state` from `src/windows.rs` lines 301-317.
The reason text is a character list; the status is the raw `u64` bitmask. -/
def parse_printer_state (platform_state : Nat) (state_reasons : List Char) :
    PrinterState :=
  if listContainsSubstr state_reasons offlineChars
      || listContainsSubstr state_reasons pendingDeletionChars then
    PrinterState.OFFLINE
  else if platform_state = 0
      ∨ platform_state &&& (0x00000100 ||| 0x00004000) ≠ 0 then
    PrinterState.READY
  else if platform_state &&& 0x00000400 ≠ 0 then
    PrinterState.PRINTING
  else if platform_state
      &&& (0x00000001 ||| 0x00000002 ||| 0x00000008 ||| 0x00000010 ||| 0x00000020) ≠ 0 then
    PrinterState.PAUSED
  else if platform_state
      &&& (0x00000080 ||| 0x00400000 ||| 0x00001000 ||| 0x00000004) ≠ 0 then
    PrinterState.OFFLINE
  else
    PrinterState.UNKNOWN

/-- Spec-side classifier for the bitmask groupings of §4.2 of the spec, with
the group-3 membership amended: the pending-deletion bit `0x4` belongs only to
group 4 (OFFLINE), not to group 3 (PAUSED).  Stated with `Nat.testBit` so that
it is phrased independently of the source's mask arithmetic. -/
def specClassify (bits : Nat) : PrinterState :=
  if bits = 0 ∨ bits.testBit 8 = true ∨ bits.testBit 14 = true then
    PrinterState.READY
  else if bits.testBit 10 = true then
    PrinterState.PRINTING
  else if bits.testBit 0 = true ∨ bits.testBit 1 = true ∨ bits.testBit 3 = true
      ∨ bits.testBit 4 = true ∨ bits.testBit 5 = true then
    PrinterState.PAUSED
  else if bits.testBit 7 = true ∨ bits.testBit 22 = true
      ∨ bits.testBit 12 = true ∨ bits.testBit 2 = true then
    PrinterState.OFFLINE
  else
    PrinterState.UNKNOWN

/-- Embedding of `parse_printer_job_state` from `src/windows.rs` lines 319-328. -/
def parse_printer_job_state (platform_state : Nat) : PrinterJobState :=
  if platform_state = 1 ∨ platform_state = 8 then PrinterJobState.PAUSED
  else if platform_state = 4 ∨ platform_state = 256 then PrinterJobState.CANCELLED
  else if platform_state = 16 ∨ platform_state = 2048 ∨ platform_state = 8192 then
    PrinterJobState.PROCESSING
  else if platform_state = 32 ∨ platform_state = 64 ∨ platform_state = 512
      ∨ platform_state = 1024 then PrinterJobState.PENDING
  else if platform_state = 128 ∨ platform_state = 496 then PrinterJobState.COMPLETED
  else PrinterJobState.UNKNOWN

def errUnsupportedTransition : String := "Operation canot be defined"

def errOpenPrinterW : String := "OpenPrinterW failed"

def errSetJobW : String := "SetJobW failed"

/-- Embedding of `winspool::jobs::set_job_state` from
`src/windows/winspool/jobs.rs` lines 211-234: open the printer, issue
`SetJobW` with the given command, close the printer.  The two booleans model
the outcomes of the two OS calls. -/
def winspool_set_job_state (openOk setJobOk : Bool) : Except String Unit :=
  if !openOk then Except.error errOpenPrinterW
  else if !setJobOk then Except.error errSetJobW
  else Except.ok ()

/-- Embedding of `set_job_state` from `src/windows.rs` lines 330-342.  The
second component records the platform command passed to the winspool layer,
`none` when no platform call is issued at all. -/
def set_job_state (openOk setJobOk : Bool) :
    PrinterJobState → Except String Unit × Option Nat
  | PrinterJobState.PAUSED => (winspool_set_job_state openOk setJobOk, some 1)
  | PrinterJobState.PENDING => (winspool_set_job_state openOk setJobOk, some 4)
  | PrinterJobState.CANCELLED => (winspool_set_job_state openOk setJobOk, some 5)
  | PrinterJobState.PROCESSING => (winspool_set_job_state openOk setJobOk, some 2)
  | _ => (Except.error errUnsupportedTransition, none)

/-- Modelled from the spec: the `PrinterJob` record of `common/base/job.rs` is
not under `src/`; §6 lists its fields (id, document name, raw state, owning
device, data-type, timestamps).  Only `state` is read by the code under
`src/`. -/
structure PrinterJob where
  id : Nat
  name : String
  state : PrinterJobState
  printer : String
  media_type : String
  created_at : Nat
deriving DecidableEq

/-- Environment for `enum_printer_jobs`: outcomes of `OpenPrinterW`, the two
`EnumJobsW` calls, the reported byte count, and the decoded job records. -/
structure EnumEnv where
  openOk : Bool
  firstCallErr : Bool
  bytesNeeded : Nat
  secondCallOk : Bool
  jobs : List PrinterJob

def errEnumJobsW : String := "EnumJobsW failed"

/-- Embedding of `enum_printer_jobs` from `src/windows/winspool/jobs.rs`
lines 150-206: open printer (error propagates), first size query (an error or
zero size yields `Ok []`), second fill query (error yields `Err`), else the
decoded jobs. -/
def enum_printer_jobs (env : EnumEnv) : Except String (List PrinterJob) :=
  if !env.openOk then Except.error errOpenPrinterW
  else if env.firstCallErr || env.bytesNeeded == 0 then Except.ok []
  else if !env.secondCallOk then Except.error errEnumJobsW
  else Except.ok env.jobs

/-- The per-job predicate of the `active_only` filter in `get_printer_jobs`,
`src/windows.rs` lines 279-287. -/
def jobFilter (active_only : Bool) (j : PrinterJob) : Bool :=
  if active_only then
    j.state == PrinterJobState.PENDING || j.state == PrinterJobState.PROCESSING
      || j.state == PrinterJobState.PAUSED
  else
    true

/-- Embedding of `get_printer_jobs` from `src/windows.rs` lines 275-289:
`enum_printer_jobs(..).unwrap_or_default()` then the `active_only` filter. -/
def get_printer_jobs (env : EnumEnv) (active_only : Bool) : List PrinterJob :=
  (match enum_printer_jobs env with
    | Except.ok jobs => jobs
    | Except.error _ => []).filter (jobFilter active_only)

/-- An environment in which both enumeration calls succeed and decode to the
given job list. -/
def okEnumEnv (jobs : List PrinterJob) : EnumEnv :=
  { openOk := true, firstCallErr := false, bytesNeeded := 1,
    secondCallOk := true, jobs := jobs }

/-! ### Raw print submitter (`print_buffer`) -/

/-- Parse an unsigned decimal digit string; `none` when empty or when a
non-digit occurs.  Helper for the Rust `str::parse::<i32>` model. -/
def parseDigits (cs : List Char) : Option Nat :=
  if cs.isEmpty then none
  else
    cs.foldl
      (fun acc c =>
        acc.bind (fun n => if c.isDigit then some (10 * n + (c.toNat - 48)) else none))
      (some 0)

/-- Model of Rust `"...".parse::<i32>()`: optional sign, one or more ASCII
digits, value within the `i32` range. -/
def parseI32 (s : String) : Option Int :=
  match s.toList with
  | '+' :: rest =>
      (parseDigits rest).bind
        (fun n => if (n : Int) ≤ 2 ^ 31 - 1 then some (n : Int) else none)
  | '-' :: rest =>
      (parseDigits rest).bind
        (fun n => if (n : Int) ≤ 2 ^ 31 then some (-(n : Int)) else none)
  | cs =>
      (parseDigits cs).bind
        (fun n => if (n : Int) ≤ 2 ^ 31 - 1 then some (n : Int) else none)

def copiesKey : String := "copies"

def documentFormatKey : String := "document-format"

def defaultDataType : String := "RAW"

/-- Embedding of the options loop of `print_buffer`,
`src/windows/winspool/jobs.rs` lines 100-109: fold over the option pairs,
starting from `copies = 1` and `data_type = "RAW"`; a `copies` value that
fails to parse leaves the current value unchanged (`unwrap_or(copies)`). -/
def resolveOptions (options : List (String × String)) : Int × String :=
  options.foldl
    (fun acc opt =>
      if opt.1 = copiesKey then ((parseI32 opt.2).getD acc.1, acc.2)
      else if opt.1 = documentFormatKey then (acc.1, opt.2)
      else acc)
    (1, defaultDataType)

/-- Platform events issued by `print_buffer`. -/
inductive RawEv
  | openPrinter
  | startDoc
  | startPage
  | writeBuffer
  | endPage
  | endDoc
  | closePrinter
deriving DecidableEq

/-- Environment for `print_buffer`: outcome of `OpenPrinterW`, the job id
returned by `StartDocPrinterW` (`0` means failure), and the per-iteration
outcome of `StartPagePrinter`. -/
structure RawEnv where
  openOk : Bool
  startDocResult : Nat
  startPageOk : Nat → Bool

def errStartDocPrinterW : String := "StartDocPrinterW failed"

/-- The copies loop of `print_buffer`, lines 127-138: each iteration starts a
page and, only when the page start succeeds, writes the buffer and ends the
page (`WritePrinter` and `EndPagePrinter` results are ignored). -/
def rawPages (env : RawEnv) : Nat → Nat → List RawEv
  | 0, _ => []
  | k + 1, i =>
      (if env.startPageOk i then [RawEv.startPage, RawEv.writeBuffer, RawEv.endPage]
       else [])
        ++ rawPages env k (i + 1)

/-- Embedding of `print_buffer` from `src/windows/winspool/jobs.rs`
lines 85-145. -/
def print_buffer (env : RawEnv) (options : List (String × String)) :
    Except String Nat × List RawEv :=
  if !env.openOk then (Except.error errOpenPrinterW, [])
  else
    let copies := (resolveOptions options).1
    if env.startDocResult = 0 then
      (Except.error errStartDocPrinterW, [RawEv.openPrinter, RawEv.closePrinter])
    else
      (Except.ok env.startDocResult,
        [RawEv.openPrinter, RawEv.startDoc]
          ++ rawPages env copies.toNat 0
          ++ [RawEv.endDoc, RawEv.closePrinter])

/-- Number of occurrences of an event in a `print_buffer` trace. -/
def countRaw (t : List RawEv) (e : RawEv) : Nat :=
  (t.filter (fun x => x = e)).length

/-! ### DeviceCaps resolver (`get_device_caps`) -/

/-- Wrap an integer into the `i32` range, the release-mode semantics of Rust
`i32` subtraction. -/
def wrap32 (x : Int) : Int := (x + 2147483648) % 4294967296 - 2147483648

/-- The six queried quantities and two queried offsets of
`src/windows/winspool/info.rs` lines 112-119, as returned by `GetDeviceCaps`. -/
structure CapsQuery where
  dpi_x : Int
  dpi_y : Int
  page_width : Int
  page_height : Int
  print_table_width : Int
  print_table_height : Int
  margin_left : Int
  margin_top : Int

/-- The `DeviceCaps` record from `src/common/traits/platform.rs` lines 8-20. -/
structure DeviceCaps where
  dpi_x : Int
  dpi_y : Int
  page_width : Int
  page_height : Int
  print_table_width : Int
  print_table_height : Int
  margin_top : Int
  margin_left : Int
  margin_right : Int
  margin_bottom : Int

/-- Embedding of `get_device_caps` from `src/windows/winspool/info.rs`
lines 105-136: copy the queried quantities and derive the right/bottom margins
by `i32` subtraction. -/
def get_device_caps (q : CapsQuery) : DeviceCaps :=
  { dpi_x := q.dpi_x
    dpi_y := q.dpi_y
    page_width := q.page_width
    page_height := q.page_height
    print_table_width := q.print_table_width
    print_table_height := q.print_table_height
    margin_top := q.margin_top
    margin_left := q.margin_left
    margin_right := wrap32 (q.page_width - q.print_table_width - q.margin_left)
    margin_bottom := wrap32 (q.page_height - q.print_table_height - q.margin_top) }

/-! ### Raster print pipeline (`print_image`) -/

/-- Platform events issued by `print_image`: GDI handle acquisitions and
releases, page cycles and the stretch-blit with its placement. -/
inductive Ev
  | openPrinter
  | closePrinter
  | createDC
  | deleteDC
  | startDoc
  | endDoc
  | startPage
  | endPage
  | createMemDC
  | deleteMemDC
  | createBitmap
  | deleteBitmap
  | selectBitmap
  | restoreBitmap
  | setDIBits
  | stretchBlt (x y w h : Int)
deriving DecidableEq

/-- Environment for `print_image`: results of the OS calls it makes, with the
per-page calls indexed by page number. -/
structure ImageEnv where
  openOk : Bool
  devmodeSize : Int
  devmodeFillOk : Bool
  createDCOk : Bool
  horzres : Int
  vertres : Int
  startDocResult : Int
  memDCOk : Nat → Bool
  bitmapOk : Nat → Bool
  setDIBitsOk : Nat → Bool
  stretchOk : Nat → Bool

def errOpenPrinterImage : String := "Failed to open printer"

def errDevmodeSize : String := "Failed to get device mode size"

def errDevmodeFill : String := "Failed to get device mode"

def errCreateDC : String := "Failed to create device context"

def errStartDoc : String := "Failed to start document"

def errMemDC : String := "Failed to create compatible DC"

def errBitmap : String := "Failed to create compatible bitmap"

def errSetDIBits : String := "Failed to set DIB bits"

def errStretchBlt : String := "Failed to stretch blit image"

/-- One iteration of the page loop of `print_image`, `src/windows.rs`
lines 142-263, for page `i`: the events it emits and the error it returns, if
any.  Each failure branch emits exactly the release calls of the
corresponding Rust branch, in the source's order. -/
def printPage (env : ImageEnv) (i : Nat) (width imgW imgH : Int) :
    List Ev × Option String :=
  if !env.memDCOk i then
    ([Ev.startPage, Ev.endPage, Ev.endDoc, Ev.deleteDC, Ev.closePrinter],
      some errMemDC)
  else if !env.bitmapOk i then
    ([Ev.startPage, Ev.createMemDC, Ev.endDoc, Ev.deleteMemDC, Ev.deleteDC,
        Ev.closePrinter],
      some errBitmap)
  else if !env.setDIBitsOk i then
    ([Ev.startPage, Ev.createMemDC, Ev.createBitmap, Ev.selectBitmap,
        Ev.restoreBitmap, Ev.deleteBitmap, Ev.deleteMemDC, Ev.endPage,
        Ev.endDoc, Ev.deleteDC, Ev.closePrinter],
      some errSetDIBits)
  else
    let x := Int.tdiv (width - imgW) 2
    if !env.stretchOk i then
      ([Ev.startPage, Ev.createMemDC, Ev.createBitmap, Ev.selectBitmap,
          Ev.setDIBits, Ev.stretchBlt x 0 imgW imgH, Ev.restoreBitmap,
          Ev.deleteBitmap, Ev.deleteMemDC, Ev.endPage, Ev.endDoc, Ev.deleteDC,
          Ev.closePrinter],
        some errStretchBlt)
    else
      ([Ev.startPage, Ev.createMemDC, Ev.createBitmap, Ev.selectBitmap,
          Ev.setDIBits, Ev.stretchBlt x 0 imgW imgH, Ev.restoreBitmap,
          Ev.deleteBitmap, Ev.deleteMemDC, Ev.endPage],
        none)

/-- The page loop of `print_image`: run `k` remaining pages starting at index
`i`, stopping at the first failing page. -/
def pageLoop (env : ImageEnv) (width imgW imgH : Int) : Nat → Nat → List Ev × Option String
  | 0, _ => ([], none)
  | k + 1, i =>
      match printPage env i width imgW imgH with
      | (evs, some err) => (evs, some err)
      | (evs, none) =>
          match pageLoop env width imgW imgH k (i + 1) with
          | (evs2, r) => (evs ++ evs2, r)

/-- Embedding of `print_image` from `src/windows.rs` lines 53-273.
`hasWidth`/`hasHeight` model `print_width.is_some()`/`print_height.is_some()`;
`imgW`/`imgH` are the bitmap's pixel dimensions.  The devmode branch is taken
when a target height or width is supplied, exactly as in the source; note its
two failure exits return without emitting any release event, because the
source returns without calling `ClosePrinter` there. -/
def print_image (env : ImageEnv) (hasWidth hasHeight : Bool)
    (imgW imgH : Int) (page_count : Nat) : Except String Int × List Ev :=
  if !env.openOk then (Except.error errOpenPrinterImage, [])
  else if (hasHeight || hasWidth) && decide (env.devmodeSize ≤ 0) then
    (Except.error errDevmodeSize, [Ev.openPrinter])
  else if (hasHeight || hasWidth) && !env.devmodeFillOk then
    (Except.error errDevmodeFill, [Ev.openPrinter])
  else if !env.createDCOk then
    (Except.error errCreateDC, [Ev.openPrinter, Ev.closePrinter])
  else if env.startDocResult = 0 then
    (Except.error errStartDoc,
      [Ev.openPrinter, Ev.createDC, Ev.deleteDC, Ev.closePrinter])
  else
    match pageLoop env env.horzres imgW imgH page_count 0 with
    | (evs, some err) =>
        (Except.error err, [Ev.openPrinter, Ev.createDC, Ev.startDoc] ++ evs)
    | (evs, none) =>
        (Except.ok env.startDocResult,
          [Ev.openPrinter, Ev.createDC, Ev.startDoc] ++ evs
            ++ [Ev.endDoc, Ev.deleteDC, Ev.closePrinter])

/-- Number of occurrences of an event in a `print_image` trace. -/
def countEv (t : List Ev) (e : Ev) : Nat :=
  (t.filter (fun x => x = e)).length

/-! ### Concrete environments used to evaluate the operations -/

/-- An enumeration environment whose `OpenPrinterW` call fails. -/
def failEnumEnv : EnumEnv :=
  { openOk := false, firstCallErr := false, bytesNeeded := 1,
    secondCallOk := true, jobs := [] }

/-- A raw-print environment in which every OS call succeeds and the document
start assigns job id 7. -/
def okRawEnv : RawEnv :=
  { openOk := true, startDocResult := 7, startPageOk := fun _ => true }

def zeroStr : String := "0"

def threeStr : String := "3"

def nanStr : String := "not-a-number"

/-- A capability query reporting a printable area wider than the page, which
produces a negative derived right margin. -/
def capsNeg : CapsQuery :=
  { dpi_x := 300, dpi_y := 300, page_width := 100, page_height := 200,
    print_table_width := 120, print_table_height := 150,
    margin_left := 0, margin_top := 10 }

/-- A raster environment where the printer opens but the device-mode size
query reports a non-positive size; every other call would succeed. -/
def devmodeFailEnv : ImageEnv :=
  { openOk := true, devmodeSize := 0, devmodeFillOk := true, createDCOk := true,
    horzres := 1000, vertres := 1200, startDocResult := 7,
    memDCOk := fun _ => true, bitmapOk := fun _ => true,
    setDIBitsOk := fun _ => true, stretchOk := fun _ => true }

/-- A raster environment where every call succeeds except the
compatible-bitmap creation on the second page (index 1). -/
def bitmapFailPage2Env : ImageEnv :=
  { openOk := true, devmodeSize := 1, devmodeFillOk := true, createDCOk := true,
    horzres := 1000, vertres := 1200, startDocResult := 7,
    memDCOk := fun _ => true, bitmapOk := fun i => i != 1,
    setDIBitsOk := fun _ => true, stretchOk := fun _ => true }

/-- A raster environment in which every OS call succeeds and the document
start assigns job id 7. -/
def allOkImageEnv : ImageEnv :=
  { openOk := true, devmodeSize := 1, devmodeFillOk := true, createDCOk := true,
    horzres := 1000, vertres := 1200, startDocResult := 7,
    memDCOk := fun _ => true, bitmapOk := fun _ => true,
    setDIBitsOk := fun _ => true, stretchOk := fun _ => true }

/-! ## Theorems -/

theorem nat_or_eq_zero_iff (a b : Nat) : a ||| b = 0 ↔ a = 0 ∧ b = 0 := by
  constructor
  · intro h
    refine ⟨Nat.eq_of_testBit_eq fun i => ?_, Nat.eq_of_testBit_eq fun i => ?_⟩ <;>
      · have hi := congrArg (fun n => Nat.testBit n i) h
        simp only [Nat.testBit_or, Nat.zero_testBit, Bool.or_eq_false_iff] at hi
        simp [hi.1, hi.2, Nat.zero_testBit]
  · rintro ⟨rfl, rfl⟩
    simp

theorem and_two_pow_eq_zero_iff (n i : Nat) :
    n &&& 2 ^ i = 0 ↔ n.testBit i = false := by
  rw [Nat.and_two_pow]
  cases h : n.testBit i <;> simp [Nat.pos_iff_ne_zero, Nat.pos_pow_of_pos]

theorem ready_mask_iff (s : Nat) :
    s &&& (0x00000100 ||| 0x00004000) ≠ 0 ↔
      s.testBit 8 = true ∨ s.testBit 14 = true := by
  have hm : (0x00000100 ||| 0x00004000 : Nat) = 2 ^ 8 ||| 2 ^ 14 := by decide
  rw [hm, Nat.and_or_distrib_left]
  simp only [ne_eq, nat_or_eq_zero_iff, not_and_or, and_two_pow_eq_zero_iff]
  simp

theorem printing_mask_iff (s : Nat) :
    s &&& 0x00000400 ≠ 0 ↔ s.testBit 10 = true := by
  have hm : (0x00000400 : Nat) = 2 ^ 10 := by decide
  rw [hm]
  simp only [ne_eq, and_two_pow_eq_zero_iff]
  simp

theorem paused_mask_iff (s : Nat) :
    s &&& (0x00000001 ||| 0x00000002 ||| 0x00000008 ||| 0x00000010 ||| 0x00000020) ≠ 0 ↔
      s.testBit 0 = true ∨ s.testBit 1 = true ∨ s.testBit 3 = true
        ∨ s.testBit 4 = true ∨ s.testBit 5 = true := by
  have hm : (0x00000001 ||| 0x00000002 ||| 0x00000008 ||| 0x00000010 ||| 0x00000020 : Nat)
      = 2 ^ 0 ||| 2 ^ 1 ||| 2 ^ 3 ||| 2 ^ 4 ||| 2 ^ 5 := by decide
  rw [hm]
  simp only [Nat.and_or_distrib_left, ne_eq, nat_or_eq_zero_iff, not_and_or,
    and_two_pow_eq_zero_iff]
  simp [or_assoc]

theorem offline_mask_iff (s : Nat) :
    s &&& (0x00000080 ||| 0x00400000 ||| 0x00001000 ||| 0x00000004) ≠ 0 ↔
      s.testBit 7 = true ∨ s.testBit 22 = true ∨ s.testBit 12 = true
        ∨ s.testBit 2 = true := by
  have hm : (0x00000080 ||| 0x00400000 ||| 0x00001000 ||| 0x00000004 : Nat)
      = 2 ^ 7 ||| 2 ^ 22 ||| 2 ^ 12 ||| 2 ^ 2 := by decide
  rw [hm]
  simp only [Nat.and_or_distrib_left, ne_eq, nat_or_eq_zero_iff, not_and_or,
    and_two_pow_eq_zero_iff]
  simp [or_assoc]

/-- C2 counterexample: a bitmask with only the pending-deletion bit `0x4` set
and empty reason text is classified OFFLINE by `parse_printer_state`, not
PAUSED as the claim states, because the source's group-3 mask omits `0x4`. -/
theorem parse_printer_state_pending_deletion_bit :
    parse_printer_state 4 [] = PrinterState.OFFLINE ∧
      PrinterState.OFFLINE ≠ PrinterState.PAUSED := by
  exact ⟨by decide, by decide⟩

/-- C2 (amended): for reason text containing neither substring,
`parse_printer_state` classifies by the fixed priority order READY, PRINTING,
PAUSED, OFFLINE, UNKNOWN, where the PAUSED group is
`{paused, error, paper_jam, paper_out, manual_feed}` (the pending-deletion bit
`0x4` belongs only to the OFFLINE group). -/
theorem parse_printer_state_priority (bits : Nat) (reasons : List Char)
    (hoff : listContainsSubstr reasons offlineChars = false)
    (hpend : listContainsSubstr reasons pendingDeletionChars = false) :
    parse_printer_state bits reasons = specClassify bits := by
  unfold parse_printer_state specClassify
  rw [hoff, hpend]
  simp only [Bool.or_self, Bool.false_eq_true, if_false,
    ready_mask_iff, printing_mask_iff, paused_mask_iff, offline_mask_iff]

/-- Witness for the amended C2 theorem at the counterexample's input. -/
theorem parse_printer_state_priority_check :
    listContainsSubstr [] offlineChars = false ∧
      parse_printer_state 4 [] = specClassify 4 :=
  ⟨by decide, parse_printer_state_priority 4 [] (by decide) (by decide)⟩

/-- C3 counterexample: the bitmask `0x500` has the printing bit `0x400` set
and an empty reason text, yet `parse_printer_state` returns READY, because
the io-active bit `0x100` matches the READY group first. -/
theorem parse_printer_state_printing_masked :
    parse_printer_state 1280 [] = PrinterState.READY ∧
      1280 &&& 0x00000400 ≠ 0 ∧
      listContainsSubstr [] offlineChars = false ∧
      PrinterState.READY ≠ PrinterState.PRINTING := by
  exact ⟨by decide, by decide, by decide, by decide⟩

/-- C3 (amended): a bitmask with the printing bit `0x400` set, with neither
the io-active bit `0x100` nor the processing bit `0x4000` set, and reason
text containing neither "offline" nor "pending_deletion", is classified
PRINTING. -/
theorem parse_printer_state_printing (bits : Nat) (reasons : List Char)
    (hbit : bits &&& 0x00000400 ≠ 0)
    (hio : bits &&& 0x00000100 = 0)
    (hproc : bits &&& 0x00004000 = 0)
    (hoff : listContainsSubstr reasons offlineChars = false)
    (hpend : listContainsSubstr reasons pendingDeletionChars = false) :
    parse_printer_state bits reasons = PrinterState.PRINTING := by
  have h0 : bits ≠ 0 := by
    intro h
    apply hbit
    simp [h]
  have hmask : bits &&& 0x00004100 = 0 := by
    have h : (0x00004100 : Nat) = 0x00000100 ||| 0x00004000 := by decide
    rw [h, Nat.and_or_distrib_left, hio, hproc]
    decide
  unfold parse_printer_state
  rw [hoff, hpend]
  simp [h0, hmask, hbit]

/-- Witness for the amended C3 theorem. -/
theorem parse_printer_state_printing_check :
    (1024 : Nat) &&& 0x00000400 ≠ 0 ∧
      parse_printer_state 1024 [] = PrinterState.PRINTING :=
  ⟨by decide,
    parse_printer_state_printing 1024 [] (by decide) (by decide) (by decide)
      (by decide) (by decide)⟩

/-- C6: for any queried device quantities whose derived differences fit in
`i32`, the resolved `DeviceCaps` satisfies
`margin_right = page_width − print_table_width − margin_left` and
`margin_bottom = page_height − print_table_height − margin_top` exactly (no
clamping of negative results). -/
theorem get_device_caps_margins (q : CapsQuery)
    (hr1 : -2147483648 ≤ q.page_width - q.print_table_width - q.margin_left)
    (hr2 : q.page_width - q.print_table_width - q.margin_left < 2147483648)
    (hb1 : -2147483648 ≤ q.page_height - q.print_table_height - q.margin_top)
    (hb2 : q.page_height - q.print_table_height - q.margin_top < 2147483648) :
    (get_device_caps q).margin_right
        = (get_device_caps q).page_width - (get_device_caps q).print_table_width
          - (get_device_caps q).margin_left
      ∧ (get_device_caps q).margin_bottom
        = (get_device_caps q).page_height - (get_device_caps q).print_table_height
          - (get_device_caps q).margin_top := by
  unfold get_device_caps wrap32
  constructor <;> simp only [] <;> omega

/-- Witness for the C6 theorem at a query with a printable area wider than
the page: the derived right margin is exactly the negative difference, not
clamped to zero. -/
theorem get_device_caps_margins_check :
    (get_device_caps capsNeg).margin_right
        = (get_device_caps capsNeg).page_width
          - (get_device_caps capsNeg).print_table_width
          - (get_device_caps capsNeg).margin_left
      ∧ (get_device_caps capsNeg).margin_right < 0 :=
  ⟨(get_device_caps_margins capsNeg (by decide) (by decide) (by decide)
      (by decide)).1,
    by decide⟩

/-- C7: `set_job_state` maps a target state to a platform command exactly for
PAUSED, PENDING, CANCELLED and PROCESSING; COMPLETED and UNKNOWN fail with
the unsupported-transition error without issuing any platform call, and
CANCELLED maps to a command successfully. -/
theorem set_job_state_transitions :
    (∀ oK sK : Bool,
        (set_job_state oK sK PrinterJobState.PAUSED).2 = some 1
        ∧ (set_job_state oK sK PrinterJobState.PENDING).2 = some 4
        ∧ (set_job_state oK sK PrinterJobState.CANCELLED).2 = some 5
        ∧ (set_job_state oK sK PrinterJobState.PROCESSING).2 = some 2
        ∧ set_job_state oK sK PrinterJobState.COMPLETED
            = (Except.error errUnsupportedTransition, none)
        ∧ set_job_state oK sK PrinterJobState.UNKNOWN
            = (Except.error errUnsupportedTransition, none))
      ∧ (set_job_state true true PrinterJobState.CANCELLED).1 = Except.ok () :=
  ⟨fun _ _ => ⟨rfl, rfl, rfl, rfl, rfl, rfl⟩, rfl⟩

/-- C8: with `active_only = true` the job-listing filter retains exactly the
jobs whose state is PENDING, PROCESSING or PAUSED, in order; with
`active_only = false` it is the identity; and it is idempotent. -/
theorem get_printer_jobs_filter (jobs : List PrinterJob) :
    get_printer_jobs (okEnumEnv jobs) true
        = jobs.filter (fun j =>
            j.state == PrinterJobState.PENDING
              || j.state == PrinterJobState.PROCESSING
              || j.state == PrinterJobState.PAUSED)
      ∧ get_printer_jobs (okEnumEnv jobs) false = jobs
      ∧ get_printer_jobs (okEnumEnv (get_printer_jobs (okEnumEnv jobs) true)) true
          = get_printer_jobs (okEnumEnv jobs) true := by
  have hrun : ∀ (l : List PrinterJob) (b : Bool),
      get_printer_jobs (okEnumEnv l) b = l.filter (jobFilter b) := by
    intro l b
    rfl
  refine ⟨?_, ?_, ?_⟩
  · rw [hrun]
    rfl
  · rw [hrun]
    simp [jobFilter]
  · rw [hrun jobs true, hrun (List.filter (jobFilter true) jobs) true]
    rw [List.filter_filter]
    simp

/-- C9: whenever the underlying job enumeration returns an error,
`get_printer_jobs` returns the empty list, indistinguishable from a printer
with no jobs. -/
theorem get_printer_jobs_swallows_errors (env : EnumEnv) (active_only : Bool)
    (msg : String) (h : enum_printer_jobs env = Except.error msg) :
    get_printer_jobs env active_only = []
      ∧ get_printer_jobs env active_only
          = get_printer_jobs (okEnumEnv []) active_only := by
  unfold get_printer_jobs
  rw [h]
  exact ⟨rfl, rfl⟩

/-- Witness for the C9 theorem: a failing `OpenPrinterW` makes the
enumeration error out and `get_printer_jobs` return the empty list. -/
theorem get_printer_jobs_swallows_errors_check :
    enum_printer_jobs failEnumEnv = Except.error errOpenPrinterW
      ∧ get_printer_jobs failEnumEnv true = [] :=
  ⟨rfl, (get_printer_jobs_swallows_errors failEnumEnv true errOpenPrinterW rfl).1⟩

theorem countRaw_append (t1 t2 : List RawEv) (e : RawEv) :
    countRaw (t1 ++ t2) e = countRaw t1 e + countRaw t2 e := by
  unfold countRaw
  rw [List.filter_append, List.length_append]

theorem countRaw_nil (e : RawEv) : countRaw [] e = 0 := rfl

theorem countRaw_cons (a : RawEv) (t : List RawEv) (e : RawEv) :
    countRaw (a :: t) e = (if a = e then 1 else 0) + countRaw t e := by
  unfold countRaw
  rw [List.filter_cons]
  by_cases h : a = e <;> simp [h, Nat.add_comm]

theorem countRaw_rawPages (env : RawEnv) (h : ∀ i, env.startPageOk i = true)
    (e : RawEv)
    (he : e = RawEv.startPage ∨ e = RawEv.writeBuffer ∨ e = RawEv.endPage) :
    ∀ k i0, countRaw (rawPages env k i0) e = k
  | 0, _ => rfl
  | k + 1, i0 => by
      have ih := countRaw_rawPages env h e he k (i0 + 1)
      rcases he with rfl | rfl | rfl <;>
        simp [rawPages, h i0, countRaw_append, countRaw_cons, countRaw_nil, ih,
          Nat.add_comm]

theorem countRaw_rawPages_zero (env : RawEnv) (e : RawEv)
    (he1 : e ≠ RawEv.startPage) (he2 : e ≠ RawEv.writeBuffer)
    (he3 : e ≠ RawEv.endPage) :
    ∀ k i0, countRaw (rawPages env k i0) e = 0
  | 0, _ => rfl
  | k + 1, i0 => by
      have ih := countRaw_rawPages_zero env e he1 he2 he3 k (i0 + 1)
      by_cases h : env.startPageOk i0 <;>
        simp [rawPages, h, countRaw_append, countRaw_cons, countRaw_nil, ih,
          Ne.symm he1, Ne.symm he2, Ne.symm he3]

/-- C4 counterexample: a `copies` option of `"0"` parses to `0 ≤ 0` and is
used as-is, so `print_buffer` issues zero page-write cycles — it does not
fall back to the default of 1 copy. -/
theorem print_buffer_zero_copies :
    parseI32 zeroStr = some 0
      ∧ (print_buffer okRawEnv [(copiesKey, zeroStr)]).1 = Except.ok 7
      ∧ countRaw (print_buffer okRawEnv [(copiesKey, zeroStr)]).2 RawEv.startPage = 0
      ∧ (0 : Nat) ≠ 1 :=
  ⟨rfl, rfl, rfl, by decide⟩

/-- C4 (amended): a non-numeric `copies` value falls back to the default of
1 copy rather than failing; a numeric value `n` is used as-is, yielding
exactly `max n 0` start-page/write/end-page cycles within one document and a
single job id — in particular a positive `n` yields exactly `n` cycles, while
a value `≤ 0` yields zero cycles instead of falling back to 1. -/
theorem print_buffer_copies :
    (∀ (env : RawEnv) (s : String) (n : Int),
        env.openOk = true → env.startDocResult ≠ 0 →
        (∀ i, env.startPageOk i = true) →
        parseI32 s = some n →
          (print_buffer env [(copiesKey, s)]).1 = Except.ok env.startDocResult
          ∧ countRaw (print_buffer env [(copiesKey, s)]).2 RawEv.startPage = n.toNat
          ∧ countRaw (print_buffer env [(copiesKey, s)]).2 RawEv.writeBuffer = n.toNat
          ∧ countRaw (print_buffer env [(copiesKey, s)]).2 RawEv.endPage = n.toNat
          ∧ countRaw (print_buffer env [(copiesKey, s)]).2 RawEv.startDoc = 1
          ∧ countRaw (print_buffer env [(copiesKey, s)]).2 RawEv.endDoc = 1)
      ∧ (∀ (env : RawEnv) (s : String),
          env.openOk = true → env.startDocResult ≠ 0 →
          (∀ i, env.startPageOk i = true) →
          parseI32 s = none →
            (print_buffer env [(copiesKey, s)]).1 = Except.ok env.startDocResult
            ∧ countRaw (print_buffer env [(copiesKey, s)]).2 RawEv.startPage = 1
            ∧ countRaw (print_buffer env [(copiesKey, s)]).2 RawEv.writeBuffer = 1
            ∧ countRaw (print_buffer env [(copiesKey, s)]).2 RawEv.endPage = 1) := by
  constructor
  · intro env s n hOpen hDoc hPage hparse
    have hbuf : print_buffer env [(copiesKey, s)]
        = (Except.ok env.startDocResult,
            [RawEv.openPrinter, RawEv.startDoc]
              ++ rawPages env n.toNat 0 ++ [RawEv.endDoc, RawEv.closePrinter]) := by
      unfold print_buffer
      rw [hOpen]
      simp [resolveOptions, hparse, hDoc]
    have hsp := countRaw_rawPages env hPage RawEv.startPage (Or.inl rfl) n.toNat 0
    have hw := countRaw_rawPages env hPage RawEv.writeBuffer
      (Or.inr (Or.inl rfl)) n.toNat 0
    have hep := countRaw_rawPages env hPage RawEv.endPage
      (Or.inr (Or.inr rfl)) n.toNat 0
    have hsd := countRaw_rawPages_zero env RawEv.startDoc (by decide) (by decide)
      (by decide) n.toNat 0
    have hed := countRaw_rawPages_zero env RawEv.endDoc (by decide) (by decide)
      (by decide) n.toNat 0
    refine ⟨?_, ?_, ?_, ?_, ?_, ?_⟩ <;> rw [hbuf] <;>
      simp [countRaw_append, countRaw_cons, countRaw_nil, hsp, hw, hep, hsd, hed]
  · intro env s hOpen hDoc hPage hparse
    have hbuf : print_buffer env [(copiesKey, s)]
        = (Except.ok env.startDocResult,
            [RawEv.openPrinter, RawEv.startDoc]
              ++ rawPages env 1 0 ++ [RawEv.endDoc, RawEv.closePrinter]) := by
      unfold print_buffer
      rw [hOpen]
      simp [resolveOptions, hparse, hDoc]
    have hsp := countRaw_rawPages env hPage RawEv.startPage (Or.inl rfl) 1 0
    have hw := countRaw_rawPages env hPage RawEv.writeBuffer
      (Or.inr (Or.inl rfl)) 1 0
    have hep := countRaw_rawPages env hPage RawEv.endPage
      (Or.inr (Or.inr rfl)) 1 0
    refine ⟨?_, ?_, ?_, ?_⟩ <;> rw [hbuf] <;>
      simp [countRaw_append, countRaw_cons, countRaw_nil, hsp, hw, hep]

/-- Witness for the amended C4 theorem: `"3"` gives exactly 3 page cycles,
`"not-a-number"` falls back to 1. -/
theorem print_buffer_copies_check :
    parseI32 threeStr = some 3
      ∧ countRaw (print_buffer okRawEnv [(copiesKey, threeStr)]).2 RawEv.startPage = 3
      ∧ parseI32 nanStr = none
      ∧ countRaw (print_buffer okRawEnv [(copiesKey, nanStr)]).2 RawEv.startPage = 1 :=
  ⟨by decide,
    (print_buffer_copies.1 okRawEnv threeStr 3 rfl (by decide)
      (fun _ => rfl) (by decide)).2.1,
    by decide,
    (print_buffer_copies.2 okRawEnv nanStr rfl (by decide)
      (fun _ => rfl) (by decide)).2.1⟩

/-- C1 (code bug): when a target width is supplied and the device-mode size
query fails, `print_image` returns the size-query error while the trace holds
an unreleased printer session — the source returns at `windows.rs` line 86
without calling `ClosePrinter`, although the claim (and the spec's cleanup
discipline, honored on every other error path) requires the session handle to
be closed before the error is returned. -/
theorem print_image_devmode_leak :
    print_image devmodeFailEnv true false 10 20 1
        = (Except.error errDevmodeSize, [Ev.openPrinter])
      ∧ countEv [Ev.openPrinter] Ev.openPrinter = 1
      ∧ countEv [Ev.openPrinter] Ev.closePrinter = 0 :=
  ⟨rfl, rfl, rfl⟩

/-- C5 (code bug): forcing the compatible-bitmap creation to fail on page 2
of a 3-page job: no further page is attempted (2 of 3 pages begun), the
page-resource error is returned and the job id is not, the canvas DCs,
document, device context and session are all released, and page 1 was blitted
at `x = (1000 − 10) / 2 = 495`, `y = 0` — but the begun page 2 is never ended:
`EndPage` is missing on this one failure path (start-page count 2, end-page
count 1), so not every resource acquired for the failing page is released. -/
theorem print_image_bitmap_fail_page :
    (print_image bitmapFailPage2Env false false 10 20 3).1
        = Except.error errBitmap
      ∧ countEv (print_image bitmapFailPage2Env false false 10 20 3).2
          Ev.startPage = 2
      ∧ countEv (print_image bitmapFailPage2Env false false 10 20 3).2
          Ev.endPage = 1
      ∧ countEv (print_image bitmapFailPage2Env false false 10 20 3).2
          Ev.createMemDC = 2
      ∧ countEv (print_image bitmapFailPage2Env false false 10 20 3).2
          Ev.deleteMemDC = 2
      ∧ countEv (print_image bitmapFailPage2Env false false 10 20 3).2
          Ev.endDoc = 1
      ∧ countEv (print_image bitmapFailPage2Env false false 10 20 3).2
          Ev.deleteDC = 1
      ∧ countEv (print_image bitmapFailPage2Env false false 10 20 3).2
          Ev.closePrinter = 1
      ∧ countEv (print_image bitmapFailPage2Env false false 10 20 3).2
          (Ev.stretchBlt 495 0 10 20) = 1 :=
  ⟨rfl, rfl, rfl, rfl, rfl, rfl, rfl, rfl, rfl⟩

/-- C10: with `page_count = 0` and the session, device context and document
start all succeeding, `print_image` performs zero begin-page/end-page cycles,
still ends the document and releases the device context and the printer
session, and returns the job id assigned when the document began. -/
theorem print_image_zero_pages (env : ImageEnv) (hasW hasH : Bool)
    (imgW imgH : Int)
    (hOpen : env.openOk = true)
    (hDev : (hasH || hasW) = true → 0 < env.devmodeSize ∧ env.devmodeFillOk = true)
    (hDC : env.createDCOk = true)
    (hDoc : env.startDocResult ≠ 0) :
    print_image env hasW hasH imgW imgH 0
        = (Except.ok env.startDocResult,
            [Ev.openPrinter, Ev.createDC, Ev.startDoc, Ev.endDoc, Ev.deleteDC,
              Ev.closePrinter])
      ∧ countEv (print_image env hasW hasH imgW imgH 0).2 Ev.startPage = 0
      ∧ countEv (print_image env hasW hasH imgW imgH 0).2 Ev.endPage = 0 := by
  have h2 : ((hasH || hasW) && decide (env.devmodeSize ≤ 0)) = false := by
    by_cases hb : (hasH || hasW) = true
    · have hpos := (hDev hb).1
      rw [hb, Bool.true_and, decide_eq_false_iff_not]
      omega
    · rw [Bool.not_eq_true] at hb
      rw [hb, Bool.false_and]
  have h3 : ((hasH || hasW) && !env.devmodeFillOk) = false := by
    by_cases hb : (hasH || hasW) = true
    · rw [hb, Bool.true_and, (hDev hb).2]
      rfl
    · rw [Bool.not_eq_true] at hb
      rw [hb, Bool.false_and]
  have hmain : print_image env hasW hasH imgW imgH 0
      = (Except.ok env.startDocResult,
          [Ev.openPrinter, Ev.createDC, Ev.startDoc, Ev.endDoc, Ev.deleteDC,
            Ev.closePrinter]) := by
    simp [print_image, hOpen, h2, h3, hDC, hDoc, pageLoop]
  refine ⟨hmain, ?_, ?_⟩ <;> rw [hmain] <;> rfl

/-- Witness for the C10 theorem in an all-success environment with job id 7. -/
theorem print_image_zero_pages_check :
    print_image allOkImageEnv false false 10 20 0
        = (Except.ok 7,
            [Ev.openPrinter, Ev.createDC, Ev.startDoc, Ev.endDoc, Ev.deleteDC,
              Ev.closePrinter]) :=
  (print_image_zero_pages allOkImageEnv false false 10 20 rfl
    (fun h => absurd h (by decide)) rfl (by decide)).1

end RustPrinters
